import Mathlib

/-
Verification development for the UM_CVD cardiovascular-risk backend.

The embedding below follows the Python sources of the repository:
  backend/XAIagent_code/config.py              (FEATURE_INFO)
  backend/XAIagent_code/agents/prediction_agent.py
  backend/XAIagent_code/agents/explanation_agent.py
  backend/XAIagent_code/orchestrator.py
  backend/app.py

Numeric values are modelled by rationals (ℚ) where the Python code only
compares, adds and subtracts floats, and by reals (ℝ) where the logistic
transform (exp) is involved.  Python dictionaries are modelled by
association lists (first binding wins, as dict keys are unique); the
iteration order of a dict is its insertion order, and the iteration
order of a key-set union is modelled as first-occurrence order.
The pretrained imputer, scaler and attribution explainer are opaque
collaborators and are modelled as function parameters.
-/

namespace UMCVD

/-! ### Feature schema (config.py FEATURE_INFO and app.py FEATURE_ORDER) -/

/-- Feature metadata table from config.py `FEATURE_INFO`, in its source
order: key, display name, unit.  The remaining metadata fields
(normal range, description) are never read by the functions verified
here and are omitted. -/
def featureInfoTable : List (String × String × String) :=
  [ ("anchor_age", "Age", "years")
  , ("White Blood Cells", "White Blood Cell Count", "×10^9/L")
  , ("Urea Nitrogen", "Blood Urea Nitrogen (BUN)", "mg/dL")
  , ("Neutrophils", "Neutrophil Count", "%")
  , ("BMI", "Body Mass Index", "kg/m²")
  , ("Monocytes", "Monocyte Count", "%")
  , ("Glucose", "Blood Glucose", "mg/dL")
  , ("systolic", "Systolic Blood Pressure", "mmHg")
  , ("MCH", "Mean Corpuscular Hemoglobin", "pg")
  , ("Calcium, Total", "Total Calcium", "mg/dL")
  , ("Lymphocytes", "Lymphocyte Count", "%")
  , ("Creatinine", "Serum Creatinine", "mg/dL")
  , ("Sodium", "Blood Sodium", "mmol/L")
  , ("diastolic", "Diastolic Blood Pressure", "mmHg")
  , ("PT", "Prothrombin Time", "seconds")
  , ("imatinib_dose", "Imatinib Dose", "mg/day")
  , ("dasatinib_dose", "Dasatinib Dose", "mg/day")
  , ("nilotinib_dose", "Nilotinib Dose", "mg/day")
  , ("ponatinib_dose", "Ponatinib Dose", "mg/day")
  , ("ruxolitinib_dose", "Ruxolitinib Dose", "mg/day")
  , ("gender_encoded", "Gender", "binary") ]

/-- The required feature keys: `list(FEATURE_INFO.keys())` in
prediction_agent.validate_patient_data. -/
def required_features : List String := featureInfoTable.map Prod.fst

/-- Display name of a feature key:
`FEATURE_INFO.get(k, \x7b\x7d).get("name", k)`. -/
def displayName (k : String) : String :=
  match featureInfoTable.lookup k with
  | some (n, _) => n
  | none => k

/-- Unit of a feature key: `FEATURE_INFO.get(k, \x7b\x7d).get("unit", "")`. -/
def unitOf (k : String) : String :=
  match featureInfoTable.lookup k with
  | some (_, u) => u
  | none => ""

/-- `FEATURE_ORDER` hard-coded in backend/app.py.  Note its tail order
(gender_encoded before the last three dosages) differs from the order
of the keys of FEATURE_INFO in config.py. -/
def FEATURE_ORDER : List String :=
  [ "anchor_age", "White Blood Cells", "Urea Nitrogen", "Neutrophils", "BMI"
  , "Monocytes", "Glucose", "systolic", "MCH", "Calcium, Total", "Lymphocytes"
  , "Creatinine", "Sodium", "diastolic", "PT", "imatinib_dose", "dasatinib_dose"
  , "gender_encoded", "nilotinib_dose", "ponatinib_dose", "ruxolitinib_dose" ]

/-! ### Validator (prediction_agent.PredictionAgent.validate_patient_data) -/

/-- The list of required features absent from the record:
`[f for f in required_features if f not in patient_data]`. -/
def missing_features (patient_data : List (String × ℚ)) : List String :=
  required_features.filter (fun f => !((patient_data.map Prod.fst).contains f))

/-- `validate_patient_data`: returns `(False, "Missing features: ...")`
when some required feature is absent, else `(True, "")`.  It reads the
record and returns a fresh pair (pure, no mutation). -/
def validate_patient_data (patient_data : List (String × ℚ)) : Bool × String :=
  let missing := missing_features patient_data
  if missing.isEmpty then (true, "")
  else (false, "Missing features: " ++ String.intercalate ", " missing)

/-! ### Preprocessing

The pretrained transforms are opaque vector-to-vector functions
(spec section 6).  A vector entry `none` models a numeric NaN
(the missing-value sentinel). -/

/-- Type of an opaque pretrained transform. -/
abbrev Transform := List (Option ℚ) → List (Option ℚ)

/-- `PredictionAgent.preprocess_data`:
`df = pd.DataFrame([patient_data])` builds the single row in the
iteration (insertion) order of the record itself, then
`data_scaled = self.scaler.transform(df)` and
`data_imputed = self.imputer.transform(data_scaled)` are applied:
the scaler runs first, the imputer second. -/
def preprocess_data (scalerT imputerT : Transform)
    (patient_data : List (String × ℚ)) : List (Option ℚ) :=
  imputerT (scalerT (patient_data.map (fun kv => some kv.2)))

/-- Preprocessing inside backend/app.py `predict`: the row is built in
`FEATURE_ORDER` with `input_json.get(feature, None)` (a missing key
becomes the NaN sentinel), then `loaded_imputer.transform` runs first
and `loaded_scaler.transform` second. -/
def app_predict_preprocess (imputerT scalerT : Transform)
    (input_json : List (String × ℚ)) : List (Option ℚ) :=
  scalerT (imputerT (FEATURE_ORDER.map (fun f => input_json.lookup f)))

/-- Preprocessing as worded by spec section 4.2 (for comparison with the
code): build the vector in schema order with the NaN sentinel for
absent keys, then apply the pretrained imputer first and the pretrained
scaler second. -/
def spec_preprocess (imputerT scalerT : Transform)
    (record : List (String × ℚ)) : List (Option ℚ) :=
  scalerT (imputerT (FEATURE_ORDER.map (fun f => record.lookup f)))

/-- Concrete scaler used to observe the application order: doubles every
present entry. -/
def exScaler : Transform := List.map (Option.map (fun x => 2 * x))

/-- Concrete imputer used to observe the application order: replaces a
missing entry by 0 and adds 1 everywhere. -/
def exImputer : Transform := List.map (fun o => some (o.getD 0 + 1))

/-- A validated record whose keys are exactly FEATURE_ORDER, all values 0. -/
def exRecord : List (String × ℚ) := FEATURE_ORDER.map (fun k => (k, 0))

/-! ### Risk scorer (prediction_agent.PredictionAgent.predict) -/

/-- Logistic transform `1 / (1 + exp(-x))` used in predict:
`risk_score = 1 / (1 + np.exp(-logit))`. -/
noncomputable def sigmoid (x : ℝ) : ℝ := 1 / (1 + Real.exp (-x))

/-- Risk level bucketing in predict:
`if risk_score < 0.3: "Low" elif risk_score < 0.7: "Moderate" else "High"`.
Stated generically over any linear ordered field so that it is
executable on ℚ and applies to the real-valued risk score. -/
def risk_level {α : Type} [LinearOrderedField α] (risk_score : α) : String :=
  if risk_score < 3 / 10 then "Low"
  else if risk_score < 7 / 10 then "Moderate"
  else "High"

/-- Binary prediction in predict: `int(risk_score >= 0.5)`. -/
def binary_prediction {α : Type} [LinearOrderedField α] (risk_score : α) : ℕ :=
  if risk_score ≥ 1 / 2 then 1 else 0

/-- The numeric fields of the dictionary returned by predict. -/
structure PredictOutput where
  risk_score : ℝ
  risk_level : String
  prediction : ℕ

/-- Scoring portion of predict, given the base value and the SHAP value
vector returned by the opaque explainer:
`logit = base_value + np.sum(shap_values)`,
`risk_score = 1 / (1 + np.exp(-logit))`, then bucketing and the
binary flag. -/
noncomputable def predict_output (base_value : ℝ) (shap_values : List ℝ) :
    PredictOutput :=
  let logit := base_value + shap_values.sum
  let risk_score := sigmoid logit
  { risk_score := risk_score
    risk_level := risk_level risk_score
    prediction := binary_prediction risk_score }

/-! ### SHAP dictionary construction in predict (the zip pairing)

`feature_names = list(patient_data.keys())` and
`shap_dict = dict(zip(feature_names, shap_values))`, where
`shap_values = explanation.values[0][:, 1]` is indexed positionally:
the pretrained model interprets column i of its input as schema
feature i, so entry i of the attribution vector is the attribution of
schema feature i.  The opaque attribution vector is modelled by a
function from positions to values. -/

/-- The attribution vector for an input with `n` columns: entry `i` is
the (schema-aligned) attribution at position `i`. -/
def schemaAlignedVec (attr : ℕ → ℚ) (n : ℕ) : List ℚ :=
  (List.range n).map attr

/-- `dict(zip(feature_names, shap_values))` from predict. -/
def shap_dict (patient_data : List (String × ℚ)) (shapVec : List ℚ) :
    List (String × ℚ) :=
  (patient_data.map Prod.fst).zip shapVec

/-- The SHAP dictionary predict builds: record keys in their own
iteration order, zipped with the positionally indexed attribution
vector. -/
def predict_shap_dict (attr : ℕ → ℚ) (patient_data : List (String × ℚ)) :
    List (String × ℚ) :=
  shap_dict patient_data (schemaAlignedVec attr patient_data.length)

/-- A record holding every required feature, but with the first two
schema keys swapped relative to FEATURE_ORDER. -/
def swappedRecord : List (String × ℚ) :=
  ("White Blood Cells", 0) :: ("anchor_age", 0) ::
    (FEATURE_ORDER.drop 2).map (fun k => (k, 0))

/-- A record whose key order is exactly FEATURE_ORDER. -/
def orderedRecord : List (String × ℚ) := FEATURE_ORDER.map (fun k => (k, 0))

/-- An example attribution vector that separates positions: position i
carries attribution i. -/
def exAttr : ℕ → ℚ := fun i => (i : ℚ)

/-! ### Scenario delta engine (explanation_agent.ExplanationAgent._calculate_changes)

A prediction result dictionary, as consumed by `_calculate_changes`:
`risk_score`, `feature_values` (a feature value that is absent or not
numeric is modelled by `none`; the `isinstance((int, float))` check is
the `isSome` test), and `shap_values`. -/

structure PredResult where
  risk_score : ℚ
  feature_values : List (String × Option ℚ)
  shap_values : List (String × ℚ)

/-- `f.get(k)`: `none` when the key is absent or its value non numeric. -/
def getF (f : List (String × Option ℚ)) (k : String) : Option ℚ :=
  (f.lookup k).join

/-- `float(s.get(k, 0))`: a missing contribution is treated as 0. -/
def getS (s : List (String × ℚ)) (k : String) : ℚ :=
  (s.lookup k).getD 0

/-- `all_keys = set(f1.keys()) | set(f2.keys())`, iterated in
first-occurrence order (each key once). -/
def allKeys (f1 f2 : List (String × Option ℚ)) : List String :=
  ((f1.map Prod.fst) ++ (f2.map Prod.fst)).dedup

/-- One entry of `changes["feature_changes"]`: display name, raw key,
from/to values and unit.  (Lean reserves `from`, hence `fromVal`,
`toVal`; `unit` keeps its source name.) -/
structure FeatureChange where
  feature : String
  key : String
  fromVal : ℚ
  toVal : ℚ
  unit : String
deriving DecidableEq

/-- One entry of `changes["shap_impacts"]`: display name and delta. -/
structure ShapImpact where
  feature : String
  impact_change : ℚ
deriving DecidableEq

/-- The body of the feature-change loop for one key `k`:
include the entry iff both values are numeric and
`abs(val1 - val2) > 0.01`. -/
def featureChangeAt (f1 f2 : List (String × Option ℚ)) (k : String) :
    Option FeatureChange :=
  match getF f1 k, getF f2 k with
  | some v1, some v2 =>
      if |v1 - v2| > 1 / 100 then
        some ⟨displayName k, k, v1, v2, unitOf k⟩
      else none
  | _, _ => none

/-- The body of the SHAP-change loop for one key `k`:
`diff = shap2 - shap1`, include iff `abs(diff) > 0.005`. -/
def shapImpactAt (s1 s2 : List (String × ℚ)) (k : String) :
    Option ShapImpact :=
  let d := getS s2 k - getS s1 k
  if |d| > 1 / 200 then some ⟨displayName k, d⟩ else none

/-- Sort order used by
`changes["shap_impacts"].sort(key=lambda x: abs(x["impact_change"]), reverse=True)`:
descending absolute delta. -/
def impactGE (x y : ShapImpact) : Prop :=
  |y.impact_change| ≤ |x.impact_change|

instance : DecidableRel impactGE := fun a b =>
  inferInstanceAs (Decidable (|b.impact_change| ≤ |a.impact_change|))

instance : IsTotal ShapImpact impactGE :=
  ⟨fun a b => le_total |b.impact_change| |a.impact_change|⟩

instance : IsTrans ShapImpact impactGE :=
  ⟨fun _ _ _ h1 h2 => le_trans h2 h1⟩

/-- The result dictionary of `_calculate_changes` (the `r1`, `r2`
echo fields included). -/
structure ScenarioDelta where
  risk_change : ℚ
  r1 : ℚ
  r2 : ℚ
  feature_changes : List FeatureChange
  shap_impacts : List ShapImpact

/-- `ExplanationAgent._calculate_changes(result1, result2)`:
risk delta `r2 - r1`, input-feature changes over the union of the two
key sets with absolute tolerance 0.01, SHAP deltas over the same union
with tolerance 0.005 and missing contributions read as 0, finally
sorted by descending absolute delta (a stable sort, as in Python). -/
def calculateChanges (result1 result2 : PredResult) : ScenarioDelta :=
  let r1 := result1.risk_score
  let r2 := result2.risk_score
  let keys := allKeys result1.feature_values result2.feature_values
  { risk_change := r2 - r1
    r1 := r1
    r2 := r2
    feature_changes :=
      keys.filterMap (featureChangeAt result1.feature_values result2.feature_values)
    shap_impacts :=
      List.insertionSort impactGE
        (keys.filterMap (shapImpactAt result1.shap_values result2.shap_values)) }

/-- An example prediction result used to exercise the delta engine. -/
def exResultA : PredResult :=
  { risk_score := 1 / 2
    feature_values := [("BMI", some 30), ("Glucose", some 100), ("PT", some 10)]
    shap_values := [("BMI", 1 / 10), ("Glucose", 0)] }

/-- A second example prediction result: BMI moved by exactly 0.01
(at the exclusion boundary), Glucose by 2, PT became non numeric. -/
def exResultB : PredResult :=
  { risk_score := 3 / 5
    feature_values := [("BMI", some (3001 / 100)), ("Glucose", some 98), ("PT", none)]
    shap_values := [("BMI", 2 / 10)] }

/-! ### Capability router (orchestrator.CVDAgentOrchestrator) -/

/-- Python `str.lower()`: lowercase every character (structurally, over
the character list, so that it evaluates inside the kernel). -/
def lowerStr (s : String) : String := String.mk (s.data.map Char.toLower)

/-- Bool test that `needle` is a prefix of `haystack` (character lists). -/
def charPrefixEq : List Char → List Char → Bool
  | [], _ => true
  | _ :: _, [] => false
  | a :: as, b :: bs => a == b && charPrefixEq as bs

/-- Bool test that `needle` occurs contiguously inside `haystack`. -/
def charSeqIn (needle : List Char) : List Char → Bool
  | [] => needle.isEmpty
  | c :: rest => charPrefixEq needle (c :: rest) || charSeqIn needle rest

/-- Python substring test `needle in haystack`. -/
def strContains (haystack needle : String) : Bool :=
  charSeqIn needle.data haystack.data

/-- `any(kw in msg for kw in kws)`. -/
def containsAnyKw (msg : String) (kws : List String) : Bool :=
  kws.any (fun kw => strContains msg kw)

/-- Intent labels returned by `_analyze_intent`. -/
inductive Intent where
  | knowledge
  | explanation
  | intervention
deriving DecidableEq

/-- PRIORITY 1 keyword list of `_analyze_intent`. -/
def clinical_keywords : List String :=
  [ "tfr", "treatment-free", "discontinue", "stop", "quit", "eligible"
  , "criteria", "monitor", "schedule", "side effect", "adverse", "protocol" ]

/-- PRIORITY 2 keyword list of `_analyze_intent`. -/
def research_keywords : List String :=
  ["pubmed", "search", "find", "literature", "article", "study", "journal", "guideline"]

/-- PRIORITY 3 keyword list of `_analyze_intent`. -/
def compare_keywords : List String :=
  [ "compare", "difference", "versus", "vs", "between", "change", "better"
  , "worse", "impact", "what-if" ]

/-- PRIORITY 4 keyword list of `_analyze_intent`. -/
def explain_keywords : List String :=
  ["explain", "why", "how", "meaning", "interpret", "contribution", "shap"]

/-- PRIORITY 5 keyword list of `_analyze_intent`. -/
def plan_keywords : List String :=
  ["recommend", "suggest", "plan", "advice", "manage", "strategy", "action plan"]

/-- `CVDAgentOrchestrator._analyze_intent`: first keyword rule that
matches the lowercased message wins; default is knowledge. -/
def analyzeIntent (message : String) : Intent :=
  let msg := lowerStr message
  if containsAnyKw msg clinical_keywords then Intent.knowledge
  else if containsAnyKw msg research_keywords then Intent.knowledge
  else if containsAnyKw msg compare_keywords then Intent.explanation
  else if containsAnyKw msg explain_keywords then Intent.explanation
  else if containsAnyKw msg plan_keywords then Intent.intervention
  else Intent.knowledge

/-- Which LLM agents were initialized (they are `None` without an API
key or on failure). -/
structure AgentsAvailable where
  explanation : Bool
  knowledge : Bool
  intervention : Bool

/-- The comparison test in the explanation route of `route_request`:
`any(k in user_message.lower() for k in ["compare", "difference", "what-if", "vs"])`. -/
def isComparisonRequest (userMessage : String) : Bool :=
  containsAnyKw (lowerStr userMessage) ["compare", "difference", "what-if", "vs"]

/-- The direct-question test in the intervention route of
`route_request`: a question mark in the raw message, or one of the
interrogative phrases in the lowercased message. -/
def isSpecificQuestion (userMessage : String) : Bool :=
  strContains userMessage "?" ||
    containsAnyKw (lowerStr userMessage) ["how", "is he", "can he", "what is", "when"]

/-- The downstream call `route_request` dispatches to.  For the
comparison path the payload records side a (`self.current_prediction`)
and side b (the selected scenario, `self.updated_scenarios[-1]`). -/
inductive Dispatch (α : Type) where
  | compareScenarios (a : Option α) (b : Option α)
  | explainPrediction
  | interveneSuggest
  | knowledgeAnswer
  | notInitialized
deriving DecidableEq

/-- The classify-then-dispatch decision of
`CVDAgentOrchestrator.route_request` (the routing section after the
context/settings update): which downstream agent call is made, with the
scenario selection for the comparison path. -/
def routeDispatch {α : Type} (userMessage : String) (agents : AgentsAvailable)
    (currentPrediction : Option α) (updatedScenarios : List α) : Dispatch α :=
  let intent := analyzeIntent userMessage
  if intent = Intent.explanation ∧ agents.explanation = true then
    if isComparisonRequest userMessage ∧ updatedScenarios.isEmpty = false then
      Dispatch.compareScenarios currentPrediction updatedScenarios.getLast?
    else Dispatch.explainPrediction
  else if intent = Intent.intervention ∧ agents.intervention = true then
    if isSpecificQuestion userMessage ∧ agents.knowledge = true then
      Dispatch.knowledgeAnswer
    else Dispatch.interveneSuggest
  else if agents.knowledge = true then Dispatch.knowledgeAnswer
  else Dispatch.notInitialized

/-! ### Retrieval-toggle overrides

`route_request` (context/settings section) versus the `/api/chat`
handler in backend/app.py.  Settings of the agents that the
orchestrator owns, in the configuration where all agents are
initialized. -/

structure AgentSettings where
  knowledgePubmed : Bool
  knowledgeRag : Bool
  explanationRag : Bool
  interventionRag : Bool
deriving DecidableEq

/-- Per-request overrides carried in `context_data`
(`use_pubmed`, `use_guidelines`); `none` models an absent key
(`context_data.get(...)` returning `None`). -/
structure ContextOverrides where
  use_pubmed : Option Bool
  use_guidelines : Option Bool
deriving DecidableEq

/-- The settings update at the top of `route_request`: each override
that is not `None` is written into the corresponding agent attribute;
absent overrides leave the attribute as it is.  With no `context_data`
nothing changes. -/
def applyContextSettings (s : AgentSettings) (ctx : Option ContextOverrides) :
    AgentSettings :=
  match ctx with
  | none => s
  | some ov =>
      { knowledgePubmed := ov.use_pubmed.getD s.knowledgePubmed
        knowledgeRag := ov.use_guidelines.getD s.knowledgeRag
        explanationRag := ov.use_guidelines.getD s.explanationRag
        interventionRag := ov.use_guidelines.getD s.interventionRag }

/-- Effect of one `route_request` call on the agent settings: the pair
is (settings in effect during the dispatch, settings after the call
returns).  The method mutates the agent attributes in place and never
restores them. -/
def routeRequestSettings (s : AgentSettings) (ctx : Option ContextOverrides) :
    AgentSettings × AgentSettings :=
  let s2 := applyContextSettings s ctx
  (s2, s2)

/-- Effect of the knowledge-agent branch of the `/api/chat` handler in
backend/app.py on the agent settings: `use_rag` / `use_pubmed` are set
to False for the call when the matching toggle is off, and both are
restored to their saved originals afterwards. -/
def chatKnowledgeDispatch (s : AgentSettings)
    (useGuidelineSources usePubmedSources : Bool) :
    AgentSettings × AgentSettings :=
  let during : AgentSettings :=
    { s with
      knowledgeRag := if useGuidelineSources then s.knowledgeRag else false
      knowledgePubmed := if usePubmedSources then s.knowledgePubmed else false }
  (during, s)

/-! ## Helper lemmas -/

/-- A successful association-list lookup means the key occurs. -/
theorem lookup_some_mem {β : Type} {l : List (String × β)} {k : String} {v : β}
    (h : l.lookup k = some v) : k ∈ l.map Prod.fst := by
  induction l with
  | nil => simp [List.lookup] at h
  | cons hd tl ih =>
    rw [List.lookup] at h
    by_cases hk : k == hd.1
    · simp at hk; simp [hk]
    · simp [hk] at h; right; exact ih h

/-- A numeric feature value can only be read for a present key. -/
theorem getF_some_mem {f : List (String × Option ℚ)} {k : String} {v : ℚ}
    (h : getF f k = some v) : k ∈ f.map Prod.fst := by
  unfold getF at h
  rw [Option.join_eq_some] at h
  exact lookup_some_mem h

/-- A nonzero contribution can only be read for a present key. -/
theorem getS_ne_zero_mem {s : List (String × ℚ)} {k : String}
    (h : getS s k ≠ 0) : k ∈ s.map Prod.fst := by
  unfold getS at h
  cases hl : s.lookup k with
  | none => rw [hl] at h; simp at h
  | some v => exact lookup_some_mem hl

/-- Membership in the modelled key-set union. -/
theorem mem_allKeys {f1 f2 : List (String × Option ℚ)} {k : String} :
    k ∈ allKeys f1 f2 ↔ k ∈ f1.map Prod.fst ∨ k ∈ f2.map Prod.fst := by
  simp [allKeys]

/-- Characterization of one step of the feature-change loop. -/
theorem featureChangeAt_eq_some {f1 f2 : List (String × Option ℚ)} {k : String}
    {e : FeatureChange} :
    featureChangeAt f1 f2 k = some e ↔
      ∃ v1 v2, getF f1 k = some v1 ∧ getF f2 k = some v2 ∧
        |v1 - v2| > 1 / 100 ∧ e = ⟨displayName k, k, v1, v2, unitOf k⟩ := by
  cases h1 : getF f1 k with
  | none => simp [featureChangeAt, h1]
  | some v1 =>
    cases h2 : getF f2 k with
    | none => simp [featureChangeAt, h1, h2]
    | some v2 =>
      by_cases hgt : |v1 - v2| > 1 / 100
      · simp only [featureChangeAt, h1, h2]
        rw [if_pos hgt]
        constructor
        · intro he
          injection he with he
          exact ⟨v1, v2, rfl, rfl, hgt, he.symm⟩
        · rintro ⟨w1, w2, hw1, hw2, _, he⟩
          injection hw1 with hw1
          injection hw2 with hw2
          subst hw1; subst hw2
          rw [he]
      · simp only [featureChangeAt, h1, h2]
        rw [if_neg hgt]
        constructor
        · intro he; exact absurd he (by simp)
        · rintro ⟨w1, w2, hw1, hw2, hgt2, _⟩
          injection hw1 with hw1
          injection hw2 with hw2
          subst hw1; subst hw2
          exact absurd hgt2 hgt

/-- Membership characterization of `feature_changes`. -/
theorem mem_feature_changes {a b : PredResult} {e : FeatureChange} :
    e ∈ (calculateChanges a b).feature_changes ↔
      getF a.feature_values e.key = some e.fromVal ∧
      getF b.feature_values e.key = some e.toVal ∧
      |e.fromVal - e.toVal| > 1 / 100 ∧
      e.feature = displayName e.key ∧ e.unit = unitOf e.key := by
  show e ∈ (allKeys a.feature_values b.feature_values).filterMap _ ↔ _
  rw [List.mem_filterMap]
  constructor
  · rintro ⟨k, _, hk⟩
    rw [featureChangeAt_eq_some] at hk
    obtain ⟨v1, v2, h1, h2, hgt, he⟩ := hk
    subst he
    exact ⟨h1, h2, hgt, rfl, rfl⟩
  · rintro ⟨h1, h2, hgt, hf, hu⟩
    refine ⟨e.key, mem_allKeys.mpr (Or.inl (getF_some_mem h1)), ?_⟩
    rw [featureChangeAt_eq_some]
    refine ⟨e.fromVal, e.toVal, h1, h2, hgt, ?_⟩
    cases e
    simp_all

/-- Characterization of one step of the SHAP-change loop. -/
theorem shapImpactAt_eq_some {s1 s2 : List (String × ℚ)} {k : String}
    {e : ShapImpact} :
    shapImpactAt s1 s2 k = some e ↔
      e.feature = displayName k ∧
      e.impact_change = getS s2 k - getS s1 k ∧
      |getS s2 k - getS s1 k| > 1 / 200 := by
  unfold shapImpactAt
  by_cases hgt : |getS s2 k - getS s1 k| > 1 / 200
  · simp only [if_pos hgt, Option.some_inj]
    constructor
    · intro he; rw [← he]; exact ⟨rfl, rfl, hgt⟩
    · rintro ⟨hf, hd, _⟩; cases e; simp_all
  · simp only [if_neg hgt]
    constructor
    · intro he; exact absurd he (by simp)
    · rintro ⟨_, _, hgt2⟩; exact absurd hgt2 hgt

/-- Membership characterization of the sorted `shap_impacts`. -/
theorem mem_shap_impacts {a b : PredResult} {e : ShapImpact} :
    e ∈ (calculateChanges a b).shap_impacts ↔
      ∃ k, k ∈ allKeys a.feature_values b.feature_values ∧
        e.feature = displayName k ∧
        e.impact_change = getS b.shap_values k - getS a.shap_values k ∧
        |getS b.shap_values k - getS a.shap_values k| > 1 / 200 := by
  show e ∈ List.insertionSort impactGE _ ↔ _
  rw [List.mem_insertionSort, List.mem_filterMap]
  constructor
  · rintro ⟨k, hk, hs⟩
    rw [shapImpactAt_eq_some] at hs
    exact ⟨k, hk, hs⟩
  · rintro ⟨k, hk, hs⟩
    exact ⟨k, hk, shapImpactAt_eq_some.mpr hs⟩

/-! ## Claim C3 -/

/-- C3: `diff(a,b)` and `diff(b,a)` are sign-inverses field-by-field:
the risk deltas are negatives of each other, the attribution changes
are negated feature-for-feature, and each feature-change entry appears
with its from/to values swapped. -/
theorem c3_diff_symmetry (a b : PredResult) :
    (calculateChanges a b).risk_change = -(calculateChanges b a).risk_change
    ∧ (∀ (f : String) (d : ℚ),
        (⟨f, d⟩ : ShapImpact) ∈ (calculateChanges a b).shap_impacts ↔
        (⟨f, -d⟩ : ShapImpact) ∈ (calculateChanges b a).shap_impacts)
    ∧ (∀ e : FeatureChange,
        e ∈ (calculateChanges a b).feature_changes ↔
        (⟨e.feature, e.key, e.toVal, e.fromVal, e.unit⟩ : FeatureChange) ∈
          (calculateChanges b a).feature_changes) := by
  refine ⟨?_, ?_, ?_⟩
  · show b.risk_score - a.risk_score = -(a.risk_score - b.risk_score)
    ring
  · intro f d
    rw [mem_shap_impacts, mem_shap_impacts]
    dsimp only
    constructor
    · rintro ⟨k, hk, hf, hd, habs⟩
      refine ⟨k, ?_, hf, by linarith, ?_⟩
      · rw [mem_allKeys] at hk ⊢
        exact hk.symm
      · rw [abs_sub_comm]
        exact habs
    · rintro ⟨k, hk, hf, hd, habs⟩
      refine ⟨k, ?_, hf, by linarith, ?_⟩
      · rw [mem_allKeys] at hk ⊢
        exact hk.symm
      · rw [abs_sub_comm]
        exact habs
  · intro e
    rw [mem_feature_changes, mem_feature_changes]
    dsimp only
    constructor
    · rintro ⟨h1, h2, hgt, hf, hu⟩
      exact ⟨h2, h1, by rw [abs_sub_comm]; exact hgt, hf, hu⟩
    · rintro ⟨h1, h2, hgt, hf, hu⟩
      exact ⟨h2, h1, by rw [abs_sub_comm]; exact hgt, hf, hu⟩

/-! ## Claim C4 -/

/-- C4: `diff` includes a feature in feature_changes exactly when both
of its values are numeric and the absolute change strictly exceeds
0.01 (a change of exactly 0.01 is excluded); it includes a feature in
the attribution changes exactly when the absolute contribution delta
strictly exceeds 0.005, a missing contribution read as 0; and the
attribution changes are sorted by descending absolute delta.  The two
hypotheses are the data-model invariant that a prediction result
carries a contribution only for features of its record. -/
theorem c4_diff_tolerances (a b : PredResult)
    (ha : ∀ k ∈ a.shap_values.map Prod.fst, k ∈ a.feature_values.map Prod.fst)
    (hb : ∀ k ∈ b.shap_values.map Prod.fst, k ∈ b.feature_values.map Prod.fst) :
    (∀ k : String,
      (∃ e ∈ (calculateChanges a b).feature_changes, e.key = k) ↔
      ∃ v1 v2, getF a.feature_values k = some v1 ∧
        getF b.feature_values k = some v2 ∧ |v1 - v2| > 1 / 100)
    ∧ (∀ k : String,
      (⟨displayName k, getS b.shap_values k - getS a.shap_values k⟩ : ShapImpact) ∈
          (calculateChanges a b).shap_impacts ↔
        |getS b.shap_values k - getS a.shap_values k| > 1 / 200)
    ∧ List.Pairwise impactGE (calculateChanges a b).shap_impacts := by
  refine ⟨?_, ?_, ?_⟩
  · intro k
    constructor
    · rintro ⟨e, he, hk⟩
      rw [mem_feature_changes] at he
      subst hk
      exact ⟨e.fromVal, e.toVal, he.1, he.2.1, he.2.2.1⟩
    · rintro ⟨v1, v2, h1, h2, hgt⟩
      refine ⟨⟨displayName k, k, v1, v2, unitOf k⟩, ?_, rfl⟩
      rw [mem_feature_changes]
      exact ⟨h1, h2, hgt, rfl, rfl⟩
  · intro k
    constructor
    · intro hmem
      rw [mem_shap_impacts] at hmem
      obtain ⟨k2, _, _, hd, habs⟩ := hmem
      dsimp only at hd
      rw [← hd] at habs
      exact habs
    · intro habs
      rw [mem_shap_impacts]
      refine ⟨k, ?_, rfl, rfl, habs⟩
      have hne : getS b.shap_values k - getS a.shap_values k ≠ 0 := by
        intro h0
        rw [h0] at habs
        simp at habs
        exact absurd habs (by norm_num)
      have hor : getS a.shap_values k ≠ 0 ∨ getS b.shap_values k ≠ 0 := by
        by_contra hcon
        push_neg at hcon
        rw [hcon.1, hcon.2] at hne
        simp at hne
      rw [mem_allKeys]
      rcases hor with h | h
      · exact Or.inl (ha k (getS_ne_zero_mem h))
      · exact Or.inr (hb k (getS_ne_zero_mem h))
  · show List.Sorted impactGE _
    exact List.sorted_insertionSort impactGE _

/-- C4 witness: the tolerance characterizations and the data-model
hypotheses hold on the concrete pair of example results (where BMI
moved by exactly 0.01 and its contribution by 0.1, Glucose moved by 2
with contribution delta 0). -/
theorem c4_diff_tolerances_witness :
    (∀ k ∈ exResultA.shap_values.map Prod.fst,
        k ∈ exResultA.feature_values.map Prod.fst)
    ∧ (∀ k ∈ exResultB.shap_values.map Prod.fst,
        k ∈ exResultB.feature_values.map Prod.fst)
    ∧ ((∃ e ∈ (calculateChanges exResultA exResultB).feature_changes,
          e.key = "Glucose") ↔
        ∃ v1 v2, getF exResultA.feature_values "Glucose" = some v1 ∧
          getF exResultB.feature_values "Glucose" = some v2 ∧ |v1 - v2| > 1 / 100)
    ∧ (((⟨displayName "BMI",
          getS exResultB.shap_values "BMI" - getS exResultA.shap_values "BMI"⟩ :
            ShapImpact) ∈ (calculateChanges exResultA exResultB).shap_impacts) ↔
        |getS exResultB.shap_values "BMI" - getS exResultA.shap_values "BMI"|
          > 1 / 200) := by
  refine ⟨by decide, by decide, ?_, ?_⟩
  · exact (c4_diff_tolerances exResultA exResultB (by decide) (by decide)).1 "Glucose"
  · exact (c4_diff_tolerances exResultA exResultB (by decide) (by decide)).2.1 "BMI"

/-! ## Claim C9 -/

/-- C9: `validate_patient_data` succeeds exactly when every required
schema key is present in the record; the missing-feature list contains
every required key absent from the record (not just the first); and on
failure the error message names that whole list.  The function is a
pure function of the record (it is a Lean function), so it has no side
effects and does not mutate the record. -/
theorem c9_validate (patient_data : List (String × ℚ)) :
    ((validate_patient_data patient_data).1 = true ↔
      ∀ f ∈ required_features, f ∈ patient_data.map Prod.fst)
    ∧ (∀ f, f ∈ missing_features patient_data ↔
        f ∈ required_features ∧ f ∉ patient_data.map Prod.fst)
    ∧ ((validate_patient_data patient_data).1 = false →
        (validate_patient_data patient_data).2 =
          "Missing features: " ++
            String.intercalate ", " (missing_features patient_data)) := by
  have hmiss : ∀ f, f ∈ missing_features patient_data ↔
      f ∈ required_features ∧ f ∉ patient_data.map Prod.fst := by
    intro f
    unfold missing_features
    rw [List.mem_filter]
    simp
  refine ⟨?_, hmiss, ?_⟩
  · unfold validate_patient_data
    by_cases h : (missing_features patient_data).isEmpty
    · rw [if_pos h]
      rw [List.isEmpty_iff] at h
      simp only [true_iff]
      intro f hf
      by_contra hnot
      have hm : f ∈ missing_features patient_data := (hmiss f).mpr ⟨hf, hnot⟩
      rw [h] at hm
      exact absurd hm (List.not_mem_nil f)
    · rw [if_neg h]
      simp only [Bool.false_eq_true, false_iff]
      intro hall
      have hne : missing_features patient_data ≠ [] := by
        intro h0
        rw [← List.isEmpty_iff] at h0
        exact h h0
      obtain ⟨f, hf⟩ := List.exists_mem_of_ne_nil _ hne
      have hc := (hmiss f).mp hf
      exact absurd (hall f hc.1) hc.2
  · unfold validate_patient_data
    by_cases h : (missing_features patient_data).isEmpty
    · simp [h]
    · simp [h]

/-! ## Claim C1 -/

/-- C1 counterexample: on a fully validated record,
`PredictionAgent.preprocess_data` does not agree with the
spec-mandated pipeline (schema-ordered vector, imputer first, scaler
second): the agent applies the scaler first and the imputer second. -/
theorem c1_counterexample :
    (validate_patient_data exRecord).1 = true ∧
    preprocess_data exScaler exImputer exRecord ≠
      spec_preprocess exImputer exScaler exRecord := by
  constructor
  · decide
  · norm_num [preprocess_data, spec_preprocess, exScaler, exImputer, exRecord,
      FEATURE_ORDER]

/-- C1 amended: the two preprocessing sites of the repository use
opposite orders.  `PredictionAgent.preprocess_data` builds the row in
the iteration order of the record itself and applies the scaler first,
then the imputer; the `predict` endpoint of backend/app.py builds the
row in FEATURE_ORDER (with the NaN sentinel for absent keys) and
applies the imputer first, then the scaler.  The two orders produce
different results for the same transforms and record. -/
theorem c1_amended_preprocess_order :
    (∀ (scalerT imputerT : Transform) (patient_data : List (String × ℚ)),
      preprocess_data scalerT imputerT patient_data =
        imputerT (scalerT (patient_data.map (fun kv => some kv.2))))
    ∧ (∀ (imputerT scalerT : Transform) (input_json : List (String × ℚ)),
      app_predict_preprocess imputerT scalerT input_json =
        scalerT (imputerT (FEATURE_ORDER.map (fun f => input_json.lookup f))))
    ∧ preprocess_data exScaler exImputer exRecord ≠
        app_predict_preprocess exImputer exScaler exRecord :=
  ⟨fun _ _ _ => rfl, fun _ _ _ => rfl, by
    norm_num [preprocess_data, app_predict_preprocess, exScaler, exImputer,
      exRecord, FEATURE_ORDER]⟩

/-! ## Claim C2 -/

/-- C2: for every successful inference the returned risk score is
`1 / (1 + exp(-(base_value + sum of contributions)))`; the risk level
is Low exactly when the score is below 0.30, Moderate exactly on
[0.30, 0.70), High exactly at or above 0.70; and the binary flag is 1
exactly when the score is at least 0.5, else 0. -/
theorem c2_risk_scoring (base_value : ℝ) (shap_values : List ℝ) :
    (predict_output base_value shap_values).risk_score
        = 1 / (1 + Real.exp (-(base_value + shap_values.sum)))
    ∧ (∀ r : ℝ,
        (risk_level r = "Low" ↔ r < 3 / 10)
        ∧ (risk_level r = "Moderate" ↔ 3 / 10 ≤ r ∧ r < 7 / 10)
        ∧ (risk_level r = "High" ↔ 7 / 10 ≤ r)
        ∧ (binary_prediction r = 1 ↔ 1 / 2 ≤ r)
        ∧ (binary_prediction r = 0 ↔ r < 1 / 2))
    ∧ (predict_output base_value shap_values).risk_level
        = risk_level (predict_output base_value shap_values).risk_score
    ∧ (predict_output base_value shap_values).prediction
        = binary_prediction (predict_output base_value shap_values).risk_score := by
  refine ⟨rfl, fun r => ⟨?_, ?_, ?_, ?_, ?_⟩, rfl, rfl⟩
  · unfold risk_level
    split_ifs with h1 h2
    · exact ⟨fun _ => h1, fun _ => rfl⟩
    · exact ⟨fun h => absurd h (by decide), fun h => absurd h h1⟩
    · exact ⟨fun h => absurd h (by decide), fun h => absurd h h1⟩
  · unfold risk_level
    split_ifs with h1 h2
    · refine ⟨fun h => absurd h (by decide), ?_⟩
      rintro ⟨h3, _⟩; linarith
    · exact ⟨fun _ => ⟨le_of_not_lt h1, h2⟩, fun _ => rfl⟩
    · refine ⟨fun h => absurd h (by decide), ?_⟩
      rintro ⟨_, h4⟩; exact absurd h4 h2
  · unfold risk_level
    split_ifs with h1 h2
    · refine ⟨fun h => absurd h (by decide), fun h => ?_⟩; linarith
    · refine ⟨fun h => absurd h (by decide), fun h => ?_⟩; linarith
    · exact ⟨fun _ => le_of_not_lt h2, fun _ => rfl⟩
  · unfold binary_prediction
    split_ifs with h1
    · exact ⟨fun _ => h1, fun _ => rfl⟩
    · exact ⟨fun h => absurd h (by decide), fun h => absurd h h1⟩
  · unfold binary_prediction
    split_ifs with h1
    · exact ⟨fun h => absurd h (by decide), fun h => absurd h1 (not_le.mpr h)⟩
    · exact ⟨fun _ => lt_of_not_le h1, fun _ => rfl⟩

/-! ## Claim C5 -/

/-- C5 counterexample: the message "How should I reduce risk?"
contains the explanation keyword "how", so `_analyze_intent` classifies
it as explanation before the plan rule is ever reached, and
`route_request` dispatches it to the explanation agent — not to the
knowledge agent as the claim states (all agents configured, no
scenario history). -/
theorem c5_counterexample :
    routeDispatch "How should I reduce risk?" ⟨true, true, true⟩
        (none : Option ℕ) [] = Dispatch.explainPrediction
    ∧ routeDispatch "How should I reduce risk?" ⟨true, true, true⟩
        (none : Option ℕ) [] ≠ Dispatch.knowledgeAnswer := by
  constructor
  · decide
  · decide

/-- C5 amended: a message that contains a plan/recommendation keyword,
matches none of the earlier classification rules (clinical, research,
comparison, explanation keyword sets), and passes the direct-question
test of the code (a question mark, or one of "how", "is he", "can he",
"what is", "when") is dispatched to the knowledge agent, not the
intervention agent, whenever the knowledge agent is configured.  The
message "How should I reduce risk?" is not such a message: "how" is an
explanation keyword, so that message routes to Explanation. -/
theorem c5_amended_plan_question_routing {α : Type} (userMessage : String)
    (agents : AgentsAvailable) (currentPrediction : Option α)
    (updatedScenarios : List α)
    (hknow : agents.knowledge = true)
    (hclin : containsAnyKw (lowerStr userMessage) clinical_keywords = false)
    (hres : containsAnyKw (lowerStr userMessage) research_keywords = false)
    (hcmp : containsAnyKw (lowerStr userMessage) compare_keywords = false)
    (hexp : containsAnyKw (lowerStr userMessage) explain_keywords = false)
    (hplan : containsAnyKw (lowerStr userMessage) plan_keywords = true)
    (hq : isSpecificQuestion userMessage = true) :
    routeDispatch userMessage agents currentPrediction updatedScenarios =
      Dispatch.knowledgeAnswer := by
  have hintent : analyzeIntent userMessage = Intent.intervention := by
    simp [analyzeIntent, hclin, hres, hcmp, hexp, hplan]
  simp only [routeDispatch, hintent, hq, hknow]
  cases hi : agents.intervention <;> simp [hi]

/-- C5 amended witness: "what is a good plan" carries the plan keyword
"plan", matches no earlier rule, is a direct question by the "what is"
test, and is dispatched to the knowledge agent. -/
theorem c5_amended_witness :
    containsAnyKw (lowerStr "what is a good plan") plan_keywords = true
    ∧ isSpecificQuestion "what is a good plan" = true
    ∧ containsAnyKw (lowerStr "what is a good plan") explain_keywords = false
    ∧ routeDispatch "what is a good plan" ⟨true, true, true⟩
        (none : Option ℕ) [] = Dispatch.knowledgeAnswer := by
  refine ⟨by decide, by decide, by decide, ?_⟩
  exact c5_amended_plan_question_routing "what is a good plan" ⟨true, true, true⟩
    (none : Option ℕ) [] rfl (by decide) (by decide) (by decide) (by decide)
    (by decide) (by decide)

/-! ## Claim C6 -/

/-- C6 counterexample: the message "compare" (a comparison keyword,
no explanation or plan keyword) with an empty scenario history is
dispatched to the explanation agent (`explain_prediction`), not — as
the claim states — passed on to the subsequent classification rules,
whose default would be Knowledge. -/
theorem c6_counterexample :
    routeDispatch "compare" ⟨true, true, true⟩ (some 0) ([] : List ℕ) =
      Dispatch.explainPrediction
    ∧ routeDispatch "compare" ⟨true, true, true⟩ (some 0) ([] : List ℕ) ≠
      Dispatch.knowledgeAnswer := by
  constructor
  · decide
  · decide

/-- C6 amended: `_analyze_intent` classifies a comparison-keyword
message as Explanation regardless of the scenario history; the
comparison dispatch path fires only when the history is non-empty,
and with an empty history `route_request` dispatches the generic
`explain_prediction` call (still the Explanation capability) instead
of falling through to the later rules. -/
theorem c6_amended_comparison_history {α : Type} (userMessage : String)
    (agents : AgentsAvailable) (currentPrediction : Option α)
    (hexpl : agents.explanation = true)
    (hclin : containsAnyKw (lowerStr userMessage) clinical_keywords = false)
    (hres : containsAnyKw (lowerStr userMessage) research_keywords = false)
    (hcmp : containsAnyKw (lowerStr userMessage) compare_keywords = true) :
    routeDispatch userMessage agents currentPrediction ([] : List α) =
      Dispatch.explainPrediction
    ∧ (∀ (scens : List α) (x y : Option α),
        routeDispatch userMessage agents currentPrediction scens =
          Dispatch.compareScenarios x y → scens ≠ []) := by
  have hintent : analyzeIntent userMessage = Intent.explanation := by
    simp [analyzeIntent, hclin, hres, hcmp]
  constructor
  · simp [routeDispatch, hintent, hexpl]
  · intro scens x y h hnil
    subst hnil
    simp [routeDispatch, hintent, hexpl] at h

/-- C6 amended witness: "compare" with an empty history dispatches the
generic explanation call. -/
theorem c6_amended_witness :
    containsAnyKw (lowerStr "compare") compare_keywords = true
    ∧ routeDispatch "compare" ⟨true, true, true⟩ (none : Option ℕ) [] =
        Dispatch.explainPrediction := by
  refine ⟨by decide, ?_⟩
  exact (c6_amended_comparison_history "compare" ⟨true, true, true⟩
    (none : Option ℕ) rfl (by decide) (by decide) (by decide)).1

/-! ## Claim C7 -/

/-- C7 counterexample: a `route_request` call that carries the override
use_pubmed=False on a session whose default is True leaves the
knowledge agent with use_pubmed=False after the dispatch returns, and
the next override-free request observes False — the overridden value
has leaked into the session. -/
theorem c7_counterexample :
    (routeRequestSettings ⟨true, true, true, true⟩
        (some ⟨some false, none⟩)).2 ≠ ⟨true, true, true, true⟩
    ∧ (routeRequestSettings
        ((routeRequestSettings ⟨true, true, true, true⟩
          (some ⟨some false, none⟩)).2) none).1.knowledgePubmed = false := by
  constructor
  · decide
  · decide

/-- C7 amended: the `/api/chat` handler of backend/app.py applies the
per-call toggles for the single dispatch only and restores the saved
agent settings afterwards; `CVDAgentOrchestrator.route_request`
instead writes a present override into the agent settings and never
restores it, so the settings after the call are exactly the overridden
settings, and a subsequent call without overrides operates on whatever
the previous call left behind. -/
theorem c7_amended_override_scope :
    (∀ (s : AgentSettings) (g p : Bool), (chatKnowledgeDispatch s g p).2 = s)
    ∧ (∀ (s : AgentSettings) (p : Bool),
        (chatKnowledgeDispatch s false p).1.knowledgeRag = false)
    ∧ (∀ (s : AgentSettings) (g : Bool),
        (chatKnowledgeDispatch s g false).1.knowledgePubmed = false)
    ∧ (∀ (s : AgentSettings) (ov : ContextOverrides),
        (routeRequestSettings s (some ov)).2 =
          (routeRequestSettings s (some ov)).1)
    ∧ (∀ s : AgentSettings, (routeRequestSettings s none).1 = s) :=
  ⟨fun _ _ _ => rfl, fun _ _ => rfl, fun _ _ => rfl, fun _ _ => rfl,
    fun _ => rfl⟩

/-! ## Claim C8 -/

/-- C8 counterexample: "explain versus" contains the comparison keyword
"versus" and the explanation keyword "explain", and the scenario
history is non-empty, yet the comparison branch does not fire: the
dispatch comparison check only looks for "compare", "difference",
"what-if", "vs", none of which is a substring of "explain versus", so
the generic explanation path runs instead of a comparison against the
latest scenario. -/
theorem c8_counterexample :
    routeDispatch "explain versus" ⟨true, true, true⟩ (some 0) ([1] : List ℕ) =
      Dispatch.explainPrediction
    ∧ routeDispatch "explain versus" ⟨true, true, true⟩ (some 0) ([1] : List ℕ) ≠
      Dispatch.compareScenarios (some 0) (some 1) := by
  constructor
  · decide
  · decide

/-- C8 amended: whenever the comparison dispatch fires (the message
matches the dispatch comparison check and the scenario history is
non-empty, with the message classified as Explanation), the router
compares the current prediction (side a) against the most recently
added scenario, the last element of the history (side b) — never the
first or any other scenario.  A message with both a comparison and an
explanation keyword fires the comparison branch when its comparison
keyword is one of "compare", "difference", "what-if", "vs"; the spec
keyword "versus" classifies as Explanation but falls to the generic
explanation path. -/
theorem c8_amended_latest_scenario {α : Type} (userMessage : String)
    (agents : AgentsAvailable) (currentPrediction : Option α) (scens : List α)
    (hexpl : agents.explanation = true)
    (hclin : containsAnyKw (lowerStr userMessage) clinical_keywords = false)
    (hres : containsAnyKw (lowerStr userMessage) research_keywords = false)
    (hcmp : isComparisonRequest userMessage = true)
    (hne : scens.isEmpty = false) :
    routeDispatch userMessage agents currentPrediction scens =
      Dispatch.compareScenarios currentPrediction scens.getLast? := by
  have hwide : containsAnyKw (lowerStr userMessage) compare_keywords = true := by
    unfold isComparisonRequest containsAnyKw at hcmp
    unfold containsAnyKw
    rw [List.any_eq_true] at hcmp ⊢
    obtain ⟨kw, hkw, hs⟩ := hcmp
    refine ⟨kw, ?_, hs⟩
    simp only [List.mem_cons, List.not_mem_nil, or_false] at hkw
    rcases hkw with rfl | rfl | rfl | rfl <;> decide
  have hintent : analyzeIntent userMessage = Intent.explanation := by
    simp [analyzeIntent, hclin, hres, hwide]
  simp [routeDispatch, hintent, hexpl, hcmp, hne]

/-- C8 amended witness: "please explain and compare" with a two-element
history compares the current prediction with the last scenario. -/
theorem c8_amended_witness :
    isComparisonRequest "please explain and compare" = true
    ∧ containsAnyKw (lowerStr "please explain and compare") explain_keywords = true
    ∧ routeDispatch "please explain and compare" ⟨true, true, true⟩
        (some 0) ([1, 2] : List ℕ) = Dispatch.compareScenarios (some 0) (some 2) := by
  refine ⟨by decide, by decide, ?_⟩
  exact c8_amended_latest_scenario "please explain and compare" ⟨true, true, true⟩
    (some 0) ([1, 2] : List ℕ) rfl (by decide) (by decide) (by decide) (by decide)

/-! ## Claim C10 -/

/-- C10: predict pairs the record's own key iteration order with the
positionally indexed attribution vector, so the contribution reported
under a feature name is that feature's schema-aligned attribution
exactly when the record's key order equals the model schema order; and
for a record that contains all required keys with its first two keys
swapped, the name "White Blood Cells" (schema position 1) is paired
with the attribution of position 0 — the attribution of "anchor_age" —
rather than its own. -/
theorem c10_shap_pairing :
    (∀ (attr : ℕ → ℚ) (patient_data : List (String × ℚ)),
      patient_data.map Prod.fst = FEATURE_ORDER →
      predict_shap_dict attr patient_data =
        FEATURE_ORDER.zip (schemaAlignedVec attr FEATURE_ORDER.length))
    ∧ ((validate_patient_data swappedRecord).1 = true
        ∧ ("White Blood Cells", (0 : ℚ)) ∈ predict_shap_dict exAttr swappedRecord
        ∧ FEATURE_ORDER.indexOf "White Blood Cells" = 1
        ∧ FEATURE_ORDER.indexOf "anchor_age" = 0
        ∧ exAttr 0 = 0
        ∧ exAttr 1 ≠ 0) := by
  constructor
  · intro attr patient_data h
    unfold predict_shap_dict shap_dict schemaAlignedVec
    have hl : patient_data.length = FEATURE_ORDER.length := by
      rw [← h, List.length_map]
    rw [h, hl]
  · refine ⟨by decide, by decide, by decide, by decide, by decide, by decide⟩

/-- C10 witness: on a record whose key order is exactly FEATURE_ORDER,
the built SHAP dictionary is the schema zipped with the positionally
indexed attribution vector. -/
theorem c10_shap_pairing_witness :
    orderedRecord.map Prod.fst = FEATURE_ORDER
    ∧ predict_shap_dict exAttr orderedRecord =
        FEATURE_ORDER.zip (schemaAlignedVec exAttr FEATURE_ORDER.length) := by
  refine ⟨by decide, ?_⟩
  exact c10_shap_pairing.1 exAttr orderedRecord (by decide)

end UMCVD
